import Mathlib

/-!
Verification of the Buildboard landing-page client core: the attribution
resolver (useUTM), the section registry and navigator (onLayoutSection /
onNav), the form submission handlers (submitWaitlist, submit on the refer
page, submitFooterEmail), the concurrency guard on the submit buttons, and
the toast notification layer.

The definitions below are a shallow embedding of the TypeScript source in
frontend/app/index.tsx and frontend/app/refer.tsx.  Platform primitives
(URL query parsing, JSON.stringify, String.prototype.trim) are modelled at
the fidelity the source relies on; percent-decoding of query values and
the full Unicode whitespace class are not modelled since no behaviour in
scope depends on them.
-/

/-- The whitespace class used by JS `String.prototype.trim` and regex `\s`
(core members; exotic Unicode space separators are not modelled). -/
def jsWhitespaceChar (c : Char) : Bool :=
  c == ' ' || c == '\t' || c == '\n' || c == '\r' || c == '\x0b' ||
  c == '\x0c' || c == '\u00A0' || c == '\uFEFF'

/-- JS `String.prototype.trim`: drop leading and trailing whitespace. -/
def jsTrim (s : String) : String :=
  String.mk (((s.data.dropWhile jsWhitespaceChar).reverse.dropWhile jsWhitespaceChar).reverse)

/-- JS `x || ''` for an optional string field (undefined and '' both give ''). -/
def jsOrEmpty : Option String → String
  | some s => s
  | none => ""

/-- JS `(values.hp || '').trim().length > 0`: the honeypot short-circuit test. -/
def hpFilled (hp : Option String) : Bool :=
  0 < (jsTrim (jsOrEmpty hp)).length

/-- JS `sp.get(k) || undefined`: an empty query value is collapsed to undefined. -/
def orUndefined : Option String → Option String
  | some v => if v = "" then none else some v
  | none => none

/-- Split a character list at the first occurrence of `sep`:
`(before, some after)` when present, `(whole, none)` when absent. -/
def breakAtFirst (sep : Char) : List Char → List Char × Option (List Char)
  | [] => ([], none)
  | c :: rest =>
      if c == sep then ([], some rest)
      else
        let r := breakAtFirst sep rest
        (c :: r.1, r.2)

/-- Split a character list on every occurrence of `sep`
(the semantics of `String.splitOn` with a one-character separator). -/
def splitOnCharAux (sep : Char) : List Char → List Char → List (List Char)
  | [], acc => [acc.reverse]
  | c :: rest, acc =>
      if c == sep then acc.reverse :: splitOnCharAux sep rest []
      else splitOnCharAux sep rest (c :: acc)

/-- Split on a one-character separator. -/
def splitOnChar (sep : Char) (cs : List Char) : List (List Char) :=
  splitOnCharAux sep cs []

/-- Split one `k=v` query pair at the first `=` (no `=` gives value ""). -/
def splitPair (s : List Char) : String × String :=
  match breakAtFirst '=' s with
  | (k, none) => (String.mk k, "")
  | (k, some v) => (String.mk k, String.mk v)

/-- The query portion of a URL: after the first `?`, before any `#`. -/
def queryOfHref (href : String) : String :=
  match breakAtFirst '?' href.data with
  | (_, none) => ""
  | (_, some rest) => String.mk (breakAtFirst '#' rest).1

/-- `URLSearchParams.get`: the value of the first pair with the given key
(percent-decoding not modelled). -/
def spGet (query : String) (k : String) : Option String :=
  ((splitOnChar '&' query.data).map splitPair).lookup k

/-- Result of `useUTM` in frontend/app/index.tsx (web branch): the
attribution snapshot for the landing page, including `prefill_role`. -/
structure UtmIndex where
  source_url : String
  utm_source : Option String
  utm_campaign : Option String
  utm_medium : Option String
  prefill_role : Option String
deriving DecidableEq, Repr

/-- Result of `useUTM` in frontend/app/refer.tsx (web branch): same fields
without `prefill_role`. -/
structure Utm where
  source_url : String
  utm_source : Option String
  utm_campaign : Option String
  utm_medium : Option String
deriving DecidableEq, Repr

/-- `useUTM` of frontend/app/index.tsx on web: each recognized key is read
with `sp.get(k) || undefined`. -/
def useUTMweb (href : String) : UtmIndex :=
  let q := queryOfHref href
  { source_url := href
    utm_source := orUndefined (spGet q "utm_source")
    utm_campaign := orUndefined (spGet q "utm_campaign")
    utm_medium := orUndefined (spGet q "utm_medium")
    prefill_role := orUndefined (spGet q "role") }

/-- `useUTM` of frontend/app/refer.tsx on web. -/
def useUTMReferWeb (href : String) : Utm :=
  let q := queryOfHref href
  { source_url := href
    utm_source := orUndefined (spGet q "utm_source")
    utm_campaign := orUndefined (spGet q "utm_campaign")
    utm_medium := orUndefined (spGet q "utm_medium") }

/-- A field value inside a JS object literal that is about to be
`JSON.stringify`ed: every payload field in scope is a string or undefined. -/
inductive JsField where
  | undefinedV
  | vstr (s : String)
deriving DecidableEq, Repr

/-- Wrap an optional string the way the object literals do. -/
def jsOfOpt : Option String → JsField
  | some s => .vstr s
  | none => .undefinedV

/-- `JSON.stringify` semantics on a flat object: keys whose value is
undefined are omitted from the serialized body. -/
def serializeObj (obj : List (String × JsField)) : List (String × String) :=
  obj.filterMap (fun kv =>
    match kv.2 with
    | .undefinedV => none
    | .vstr s => some (kv.1, s))

/-- A JSON value, for parsed HTTP response bodies (`res.json()`). -/
inductive JVal where
  | jnull
  | jbool (b : Bool)
  | jnum (n : Int)
  | jstr (s : String)
  | jarr (xs : List JVal)
  | jobj (fields : List (String × JVal))

/-- The string escaping `JSON.stringify` applies inside quotes
(control characters other than these do not occur in scope). -/
def jsonEscape (s : String) : String :=
  String.mk (s.data.foldr (fun c acc =>
    match c with
    | '\"' => '\\' :: '\"' :: acc
    | '\\' => '\\' :: '\\' :: acc
    | '\n' => '\\' :: 'n' :: acc
    | '\r' => '\\' :: 'r' :: acc
    | '\t' => '\\' :: 't' :: acc
    | c => c :: acc) [])

mutual

/-- `JSON.stringify` on a JSON value. -/
def jsonStringify : JVal → String
  | .jnull => "null"
  | .jbool true => "true"
  | .jbool false => "false"
  | .jnum n => toString n
  | .jstr s => "\"" ++ jsonEscape s ++ "\""
  | .jarr xs => "[" ++ jsonStringifyList xs ++ "]"
  | .jobj fs => "\x7b" ++ jsonStringifyFields fs ++ "\x7d"

/-- Comma-joined serialization of an array body. -/
def jsonStringifyList : List JVal → String
  | [] => ""
  | [x] => jsonStringify x
  | x :: y :: rest => jsonStringify x ++ "," ++ jsonStringifyList (y :: rest)

/-- Comma-joined serialization of an object body. -/
def jsonStringifyFields : List (String × JVal) → String
  | [] => ""
  | [(k, v)] => "\"" ++ jsonEscape k ++ "\":" ++ jsonStringify v
  | (k, v) :: f :: rest =>
      "\"" ++ jsonEscape k ++ "\":" ++ jsonStringify v ++ "," ++ jsonStringifyFields (f :: rest)

end

/-- JS property access `j?.k` on a parsed JSON value: defined only on objects. -/
def jget : JVal → String → Option JVal
  | .jobj fs, k => fs.lookup k
  | _, _ => none

/-- JS truthiness of a JSON value (`if (err?.detail)`). -/
def jsTruthy : JVal → Bool
  | .jnull => false
  | .jbool b => b
  | .jnum n => n != 0
  | .jstr s => s != ""
  | .jarr _ => true
  | .jobj _ => true

/-- Field values of the waitlist form (`WaitlistForm` in index.tsx):
`role` defaults to undefined, `hp` is the honeypot. -/
structure WaitlistForm where
  name : String
  email : String
  role : Option String
  hp : Option String
deriving DecidableEq, Repr

/-- `defaultValues` of the waitlist `useForm` call. -/
def defaultWaitlistValues : WaitlistForm :=
  { name := "", email := "", role := none, hp := some "" }

/-- Field values of the referral form (`ReferralForm` in refer.tsx). -/
structure ReferralForm where
  referrer_name : String
  referrer_email : String
  referral_type : Option String
  referral_name : String
  referral_contact : Option String
  notes : Option String
  hp : Option String
deriving DecidableEq, Repr

/-- `defaultValues` of the referral `useForm` call. -/
def defaultReferralValues : ReferralForm :=
  { referrer_name := "", referrer_email := "", referral_type := none,
    referral_name := "", referral_contact := some "", notes := some "",
    hp := some "" }

/-- One outbound HTTP POST: path plus the object literal passed to
`JSON.stringify` as the request body. -/
structure ApiRequest where
  path : String
  body : List (String × JsField)
deriving DecidableEq, Repr

/-- The object literal sent by `submitWaitlist` (index.tsx). -/
def waitlistBodyObj (v : WaitlistForm) (utm : UtmIndex) : List (String × JsField) :=
  [("name", .vstr (jsTrim v.name)),
   ("email", .vstr (jsTrim v.email)),
   ("role", jsOfOpt v.role),
   ("source_url", .vstr utm.source_url),
   ("utm_source", jsOfOpt utm.utm_source),
   ("utm_campaign", jsOfOpt utm.utm_campaign),
   ("utm_medium", jsOfOpt utm.utm_medium)]

/-- The object literal sent by `submitFooterEmail` (index.tsx). -/
def footerBodyObj (email : String) (utm : UtmIndex) : List (String × JsField) :=
  [("name", .vstr email),
   ("email", .vstr email),
   ("role", .vstr "Subscriber"),
   ("source_url", .vstr utm.source_url),
   ("utm_source", jsOfOpt utm.utm_source),
   ("utm_campaign", jsOfOpt utm.utm_campaign),
   ("utm_medium", jsOfOpt utm.utm_medium)]

/-- The object literal sent by `submit` (refer.tsx): `...utm` spread first,
then the trimmed form fields; optional fields use `trim() || undefined`. -/
def referralBodyObj (v : ReferralForm) (utm : Utm) : List (String × JsField) :=
  [("source_url", .vstr utm.source_url),
   ("utm_source", jsOfOpt utm.utm_source),
   ("utm_campaign", jsOfOpt utm.utm_campaign),
   ("utm_medium", jsOfOpt utm.utm_medium),
   ("referrer_name", .vstr (jsTrim v.referrer_name)),
   ("referrer_email", .vstr (jsTrim v.referrer_email)),
   ("referral_type", jsOfOpt v.referral_type),
   ("referral_name", .vstr (jsTrim v.referral_name)),
   ("referral_contact", jsOfOpt (orUndefined (v.referral_contact.map jsTrim))),
   ("notes", jsOfOpt (orUndefined (v.notes.map jsTrim)))]

/-- How the awaited `fetch` settles: a thrown transport error, or an HTTP
response with a status and a parsed JSON body (`none` if `res.json()` throws). -/
inductive FetchOutcome where
  | transportError
  | response (status : Nat) (body : Option JVal)

/-- `res.ok`: status in the 2xx range. -/
def resOk (status : Nat) : Bool := 200 ≤ status && status < 300

/-- The generic failure message both submit handlers show. -/
def couldntSubmitMsg : String := "Couldn’t submit right now. Please try again."

/-- Observable result of one run of `submitWaitlist`: requests issued,
toast shown, success flags, final form values (reset only via `reset()`),
and the `submitting` flag after the `finally` block. -/
structure WaitlistRun where
  requests : List ApiRequest
  toast : Option String
  thankYou : Bool
  successModal : Bool
  finalValues : WaitlistForm
  finalSubmitting : Bool
deriving DecidableEq, Repr

/-- `submitWaitlist` of index.tsx, as a function of the form values, the
attribution snapshot and the fetch outcome.  The honeypot test precedes
`setSubmitting(true)`; a non-ok response shows the generic toast and
returns; the catch branch does the same; only the ok branch calls
`reset()` and opens the success modal; `finally` clears `submitting`. -/
def submitWaitlist (v : WaitlistForm) (utm : UtmIndex) (outcome : FetchOutcome) : WaitlistRun :=
  if hpFilled v.hp then
    { requests := [], toast := none, thankYou := false, successModal := false,
      finalValues := v, finalSubmitting := false }
  else
    let req : ApiRequest := { path := "/api/waitlist", body := waitlistBodyObj v utm }
    match outcome with
    | .transportError =>
        { requests := [req], toast := some couldntSubmitMsg, thankYou := false,
          successModal := false, finalValues := v, finalSubmitting := false }
    | .response status _ =>
        if resOk status then
          { requests := [req], toast := none, thankYou := true, successModal := true,
            finalValues := defaultWaitlistValues, finalSubmitting := false }
        else
          { requests := [req], toast := some couldntSubmitMsg, thankYou := false,
            successModal := false, finalValues := v, finalSubmitting := false }

/-- A character admitted by the regex class `[^\s@]`. -/
def emailChar (c : Char) : Bool :=
  !(jsWhitespaceChar c) && c != '@'

/-- True when a character list has a `.` that is neither its first nor its
last element (scanning positions from the second one on). -/
def auxDot : List Char → Bool
  | [] => false
  | [_] => false
  | c :: r => c == '.' || auxDot r

/-- `∃` split `b ++ '.' :: t` with `b` and `t` nonempty. -/
def interiorDot : List Char → Bool
  | [] => false
  | _ :: r => auxDot r

/-- The anchored test `/^[^\s@]+@[^\s@]+\.[^\s@]+$/.test(s)`: exactly one
`@`, a nonempty local part of `[^\s@]` characters, and a domain of
`[^\s@]` characters splitting as nonempty `++ "." ++` nonempty. -/
def emailRegexMatch (s : String) : Bool :=
  match splitOnChar '@' s.data with
  | [a, d] => !a.isEmpty && a.all emailChar && d.all emailChar && interiorDot d
  | _ => false

/-- `submitFooterEmail` of index.tsx: guard `!email || !regex.test(email)`
returns with no request and no state change; otherwise one POST to
/api/waitlist using the email as both name and email with role Subscriber.
(The handler reads no component state other than `utm` and writes none.) -/
def submitFooterEmail (email : String) (utm : UtmIndex) : Option ApiRequest :=
  if email == "" || !(emailRegexMatch email) then none
  else some { path := "/api/waitlist", body := footerBodyObj email utm }

/-- The referral page error message for an invalid type pre-check. -/
def invalidTypeMsg : String := "Please select a valid referral type."

/-- The message surfaced by the refer page for a non-ok response: start
from the generic message; if the parsed body has a truthy `detail`, use it
verbatim when it is a string and `JSON.stringify` it otherwise. -/
def referErrMsg (body : Option JVal) : String :=
  match body with
  | none => couldntSubmitMsg
  | some j =>
      match jget j "detail" with
      | some d => if jsTruthy d then
            (match d with
             | .jstr s => s
             | _ => jsonStringify d)
          else couldntSubmitMsg
      | none => couldntSubmitMsg

/-- Observable result of one run of `submit` on the refer page. -/
structure ReferralRun where
  requests : List ApiRequest
  toast : Option String
  submitError : Option String
  thanks : Bool
  successModal : Bool
  finalValues : ReferralForm
  finalSubmitting : Bool
deriving DecidableEq, Repr

/-- `submit` of refer.tsx: honeypot short-circuit first, then the
referral-type pre-check (`setSubmitError`, no fetch), then the POST; a
non-ok response surfaces `referErrMsg` via `setSubmitError` and the toast;
the catch branch surfaces the generic message; only the ok branch resets
values and opens the success modal; `finally` clears `submitting`. -/
def submitRefer (v : ReferralForm) (utm : Utm) (outcome : FetchOutcome) : ReferralRun :=
  if hpFilled v.hp then
    { requests := [], toast := none, submitError := none, thanks := false,
      successModal := false, finalValues := v, finalSubmitting := false }
  else if v.referral_type != some "Shop" && v.referral_type != some "Builder" then
    { requests := [], toast := none, submitError := some invalidTypeMsg,
      thanks := false, successModal := false, finalValues := v, finalSubmitting := false }
  else
    let req : ApiRequest := { path := "/api/referrals", body := referralBodyObj v utm }
    match outcome with
    | .transportError =>
        { requests := [req], toast := some couldntSubmitMsg,
          submitError := some couldntSubmitMsg, thanks := false,
          successModal := false, finalValues := v, finalSubmitting := false }
    | .response status body =>
        if resOk status then
          { requests := [req], toast := none, submitError := none, thanks := true,
            successModal := true, finalValues := defaultReferralValues,
            finalSubmitting := false }
        else
          { requests := [req], toast := some (referErrMsg body),
            submitError := some (referErrMsg body), thanks := false,
            successModal := false, finalValues := v, finalSubmitting := false }

/-- Network-level state of one form instance: the `submitting` flag, the
number of requests issued so far, and how many are still in flight. -/
structure NetState where
  submitting : Bool
  sent : Nat
  pending : Nat
deriving DecidableEq, Repr

/-- A user submit intent (a tap on the submit affordance) or the
settlement of an in-flight request (the `finally` block running). -/
inductive NetEvent where
  | tap
  | settle
deriving DecidableEq, Repr

/-- Step function of the waitlist and referral forms.  The Pressable is
`disabled={!isValid || submitting}` (index.tsx) and `disabled={!canSubmit}`
with `canSubmit = formState.isValid && !submitting` (refer.tsx), so a tap
fires the handler only when `valid && !submitting`; the handler sets
`submitting` before its single `fetch`, and `finally` clears it. -/
def guardedStep (valid : Bool) : NetState → NetEvent → NetState
  | s, .tap =>
      if valid && !s.submitting then
        { submitting := true, sent := s.sent + 1, pending := s.pending + 1 }
      else s
  | s, .settle => { s with submitting := false, pending := s.pending - 1 }

/-- Step function of the footer micro-form: the Pressable is never
disabled and `submitFooterEmail` consults no submitting flag, so every tap
with a passing email issues a fetch. -/
def footerStep (email : String) (utm : UtmIndex) : NetState → NetEvent → NetState
  | s, .tap =>
      match submitFooterEmail email utm with
      | some _ => { s with sent := s.sent + 1, pending := s.pending + 1 }
      | none => s
  | s, .settle => { s with pending := s.pending - 1 }

/-- The state before any event: not submitting, nothing sent. -/
def netInit : NetState := { submitting := false, sent := 0, pending := 0 }

/-- Run a form instance over a sequence of events. -/
def runNet (step : NetState → NetEvent → NetState) (es : List NetEvent) : NetState :=
  es.foldl step netInit

/-- The `sectionYs` record: section id to measured vertical offset. -/
def SectionMap : Type := String → Option Int

/-- `onLayoutSection` (index.tsx): functional update
`prev => ({...prev, [id]: y})` — overwrite one key, keep the rest. -/
def reportOffset (m : SectionMap) (id : String) (y : Int) : SectionMap :=
  fun j => if j == id then some y else m j

/-- `setSectionYs({})`: the whole map reset performed by the
Dimensions-change effect (and the initial state). -/
def resetSectionYs : SectionMap := fun _ => none

/-- The sticky-header height subtracted from a section offset. -/
def headerHeight : Int := 88

/-- State of the non-web navigator: the live `sectionYs` map, the queue of
scheduled 250ms retries (each holds the `sectionYs` snapshot its closure
captured, plus the target id), and the scroll commands issued so far. -/
structure NavState where
  current : SectionMap
  pendingTimers : List (SectionMap × String)
  scrolls : List Int

/-- A layout report, a navigation tap (non-web branch of `onNav`), or a
scheduled retry timeout firing. -/
inductive NavEvent where
  | report (id : String) (y : Int)
  | nav (id : String)
  | timerFire

/-- One event of the navigator.  `nav id` reads the current map; when the
offset is absent it schedules one retry whose callback closes over the
`sectionYs` binding of the render that created `onNav`, so the retry
re-reads that captured snapshot, not the state updated by later reports.
`timerFire` runs the oldest scheduled retry: a hit scrolls to
`max(0, y - 88)`, a miss is a silent no-op. -/
def navStep (s : NavState) : NavEvent → NavState
  | .report id y => { s with current := reportOffset s.current id y }
  | .nav id =>
      match s.current id with
      | some y => { s with scrolls := s.scrolls ++ [max 0 (y - headerHeight)] }
      | none => { s with pendingTimers := s.pendingTimers ++ [(s.current, id)] }
  | .timerFire =>
      match s.pendingTimers with
      | [] => s
      | (captured, id) :: rest =>
          match captured id with
          | some y2 => { s with pendingTimers := rest,
                                scrolls := s.scrolls ++ [max 0 (y2 - headerHeight)] }
          | none => { s with pendingTimers := rest }

/-- The navigator before any layout has been reported. -/
def navInit : NavState :=
  { current := resetSectionYs, pendingTimers := [], scrolls := [] }

/-- Run the navigator over a sequence of events. -/
def runNav (es : List NavEvent) : NavState :=
  es.foldl navStep navInit

/-- The toast auto-dismiss delay passed to `setTimeout` (2.5s). -/
def toastDuration : Nat := 2500

/-- State of the notification layer: the single `toast` state slot and the
deadlines of the `setTimeout(() => setToast(null), 2500)` calls still
pending (`showToast` never cancels an earlier one). -/
structure ToastState where
  toast : Option String
  pendingT : List Nat
deriving DecidableEq, Repr

/-- `disp t msg` is a `showToast(msg)` call at time `t`; `fire t` is a
pending dismissal timer with deadline `t` firing. -/
inductive ToastEvent where
  | disp (t : Nat) (msg : String)
  | fire (t : Nat)
deriving DecidableEq, Repr

/-- One event of the notification layer.  `showToast` overwrites the slot
(replace, not queue) and schedules an unconditional `setToast(null)` for
2.5s later; when any pending timer fires the slot is cleared, whichever
toast currently occupies it. -/
def toastStep (s : ToastState) : ToastEvent → ToastState
  | .disp t msg => { toast := some msg, pendingT := s.pendingT ++ [t + toastDuration] }
  | .fire t =>
      if s.pendingT.contains t then
        { toast := none, pendingT := s.pendingT.erase t }
      else s

/-- No toast, no timers. -/
def toastInit : ToastState := { toast := none, pendingT := [] }

/-- Run the notification layer over a sequence of events. -/
def runToast (es : List ToastEvent) : ToastState :=
  es.foldl toastStep toastInit

/-- Invariant of the guarded (waitlist/referral) submit machine: at most
one request in flight, and one only while `submitting` is set. -/
def netGuardInv (s : NetState) : Prop :=
  s.pending ≤ 1 ∧ (s.pending = 1 → s.submitting = true)


lemma guardedStep_preserves (valid : Bool) (s : NetState) (e : NetEvent)
    (h : netGuardInv s) : netGuardInv (guardedStep valid s e) := by
  obtain ⟨h1, h2⟩ := h
  cases e with
  | tap =>
      by_cases hv : (valid && !s.submitting) = true
      · have hv' := hv
        simp only [Bool.and_eq_true] at hv'
        have hsub : s.submitting = false := by simpa using hv'.2
        have hp0 : s.pending = 0 := by
          by_contra hne
          have hp1 : s.pending = 1 := by omega
          have hst := h2 hp1
          rw [hsub] at hst
          exact Bool.false_ne_true hst
        refine ⟨?_, ?_⟩
        · simp [guardedStep, hv, hp0]
        · intro _
          simp [guardedStep, hv]
      · have hid : guardedStep valid s .tap = s := by simp [guardedStep, hv]
        rw [hid]
        exact ⟨h1, h2⟩
  | settle =>
      refine ⟨?_, ?_⟩
      · show s.pending - 1 ≤ 1
        omega
      · intro hp
        have hp' : s.pending - 1 = 1 := hp
        exfalso
        omega

lemma guardedRun_inv (valid : Bool) :
    ∀ (es : List NetEvent) (s : NetState), netGuardInv s →
      netGuardInv (es.foldl (guardedStep valid) s)
  | [], _, h => h
  | e :: es, s, h =>
      guardedRun_inv valid es (guardedStep valid s e) (guardedStep_preserves valid s e h)

lemma lookup_serializeObj_dropped (k : String) :
    ∀ (obj : List (String × JsField)),
      (∀ p ∈ obj, p.1 = k → p.2 = JsField.undefinedV) →
      (serializeObj obj).lookup k = none
  | [], _ => rfl
  | (k', JsField.undefinedV) :: rest, h =>
      lookup_serializeObj_dropped k rest (fun p hp => h p (List.mem_cons_of_mem _ hp))
  | (k', JsField.vstr s) :: rest, h => by
      have hne : k' ≠ k := by
        intro he
        have := h (k', JsField.vstr s) (List.mem_cons_self _ _) he
        simp at this
      have hb : (k == k') = false := beq_eq_false_iff_ne.mpr (Ne.symm hne)
      have htail := lookup_serializeObj_dropped k rest (fun p hp => h p (List.mem_cons_of_mem _ hp))
      simpa [serializeObj, List.lookup, hb] using htail

lemma waitlist_serialized_utm_lookup (v : WaitlistForm) (utm : UtmIndex) :
    (serializeObj (waitlistBodyObj v utm)).lookup "utm_source" = utm.utm_source ∧
    (serializeObj (waitlistBodyObj v utm)).lookup "utm_campaign" = utm.utm_campaign ∧
    (serializeObj (waitlistBodyObj v utm)).lookup "utm_medium" = utm.utm_medium := by
  obtain ⟨n, e, r, hpf⟩ := v
  obtain ⟨su, s, c, m, p⟩ := utm
  cases r <;> cases s <;> cases c <;> cases m <;> exact ⟨rfl, rfl, rfl⟩

lemma footer_serialized_utm_lookup (email : String) (utm : UtmIndex) :
    (serializeObj (footerBodyObj email utm)).lookup "utm_source" = utm.utm_source ∧
    (serializeObj (footerBodyObj email utm)).lookup "utm_campaign" = utm.utm_campaign ∧
    (serializeObj (footerBodyObj email utm)).lookup "utm_medium" = utm.utm_medium := by
  obtain ⟨su, s, c, m, p⟩ := utm
  cases s <;> cases c <;> cases m <;> exact ⟨rfl, rfl, rfl⟩

lemma referral_serialized_utm_lookup (v : ReferralForm) (utm : Utm) :
    (serializeObj (referralBodyObj v utm)).lookup "utm_source" = utm.utm_source ∧
    (serializeObj (referralBodyObj v utm)).lookup "utm_campaign" = utm.utm_campaign ∧
    (serializeObj (referralBodyObj v utm)).lookup "utm_medium" = utm.utm_medium := by
  obtain ⟨su, s, c, m⟩ := utm
  cases s <;> cases c <;> cases m <;>
    refine ⟨?_, ?_, ?_⟩ <;>
    first
      | rfl
      | (apply lookup_serializeObj_dropped
         intro q hq hk
         simp [referralBodyObj] at hq
         rcases hq with rfl | rfl | rfl | rfl | rfl | rfl | rfl | rfl | rfl | rfl <;>
           first
             | rfl
             | simp at hk)

/-- C1: For the waitlist and referral forms, a honeypot field holding any
non-whitespace content makes submit() short-circuit before the network
call: no request is issued, no toast or error is surfaced, no success
transition happens, and the values and the Idle (not-submitting) status
are unchanged, regardless of every other field and of how a fetch would
have settled.  The footer micro-form has no honeypot field, so the
condition cannot arise there. -/
theorem honeypot_silent_drop
    (wv : WaitlistForm) (wutm : UtmIndex) (rv : ReferralForm) (rutm : Utm)
    (o o' : FetchOutcome)
    (hw : hpFilled wv.hp = true) (hr : hpFilled rv.hp = true) :
    submitWaitlist wv wutm o =
      { requests := [], toast := none, thankYou := false, successModal := false,
        finalValues := wv, finalSubmitting := false } ∧
    submitRefer rv rutm o' =
      { requests := [], toast := none, submitError := none, thanks := false,
        successModal := false, finalValues := rv, finalSubmitting := false } := by
  constructor
  · simp [submitWaitlist, hw]
  · simp [submitRefer, hr]

/-- Witness for honeypot_silent_drop at a concrete bot-filled submission. -/
theorem honeypot_silent_drop_witness :
    hpFilled (some "gotcha") = true ∧
    (submitWaitlist ⟨"Al", "a@b.c", some "Enthusiast", some "gotcha"⟩
        (useUTMweb "https://x/") FetchOutcome.transportError =
      { requests := [], toast := none, thankYou := false, successModal := false,
        finalValues := ⟨"Al", "a@b.c", some "Enthusiast", some "gotcha"⟩,
        finalSubmitting := false } ∧
     submitRefer ⟨"Al", "a@b.c", some "Shop", "Bob", some "", some "", some "gotcha"⟩
        (useUTMReferWeb "https://x/") FetchOutcome.transportError =
      { requests := [], toast := none, submitError := none, thanks := false,
        successModal := false,
        finalValues := ⟨"Al", "a@b.c", some "Shop", "Bob", some "", some "", some "gotcha"⟩,
        finalSubmitting := false }) :=
  ⟨by decide, honeypot_silent_drop _ _ _ _ _ _ (by decide) (by decide)⟩

/-- C2 (amended): for the waitlist and referral forms, whose submit
Pressable is disabled while `submitting` is set, every run has at most one
request in flight, and a tap while `status == Submitting` changes nothing
(no second request).  The original claim extends this to the footer
micro-form, which the code contradicts (see
footer_double_tap_two_requests). -/
theorem guarded_submit_at_most_one_in_flight :
    (∀ (valid : Bool) (es : List NetEvent),
        (runNet (guardedStep valid) es).pending ≤ 1) ∧
    (∀ (valid : Bool) (s : NetState),
        s.submitting = true → guardedStep valid s NetEvent.tap = s) := by
  constructor
  · intro valid es
    exact (guardedRun_inv valid es netInit (by constructor <;> decide)).1
  · intro valid s h
    simp [guardedStep, h]

/-- Witness for guarded_submit_at_most_one_in_flight on a concrete double
tap and a concrete Submitting state. -/
theorem guarded_submit_at_most_one_in_flight_witness :
    (runNet (guardedStep true)
        [NetEvent.tap, NetEvent.tap, NetEvent.settle, NetEvent.tap]).pending ≤ 1 ∧
    ((NetState.mk true 1 1).submitting = true ∧
      guardedStep true (NetState.mk true 1 1) NetEvent.tap = NetState.mk true 1 1) :=
  ⟨guarded_submit_at_most_one_in_flight.1 true _,
   ⟨rfl, guarded_submit_at_most_one_in_flight.2 true _ rfl⟩⟩

/-- C2 counterexample: the footer micro-form has no concurrency guard —
its Pressable is never disabled and `submitFooterEmail` consults no
submitting flag — so two rapid taps with a valid email put two requests
in flight at once, refuting at-most-one-in-flight for every form. -/
theorem footer_double_tap_two_requests :
    ¬ ((runNet (footerStep "a@b.c" (useUTMweb "https://x/"))
          [NetEvent.tap, NetEvent.tap]).pending ≤ 1) := by
  decide

/-- C3: a non-2xx response or a transport error returns both the waitlist
and the referral form to the editable Idle state (submitting cleared by
the finally block) with the prior field values retained; values are reset
to the schema defaults only on a 2xx success. -/
theorem failure_returns_idle_values_retained
    (wv : WaitlistForm) (wutm : UtmIndex) (rv : ReferralForm) (rutm : Utm)
    (status : Nat) (b b' : Option JVal) :
    (resOk status = false →
      (submitWaitlist wv wutm (.response status b)).finalSubmitting = false ∧
      (submitWaitlist wv wutm (.response status b)).finalValues = wv ∧
      (submitRefer rv rutm (.response status b')).finalSubmitting = false ∧
      (submitRefer rv rutm (.response status b')).finalValues = rv) ∧
    ((submitWaitlist wv wutm .transportError).finalSubmitting = false ∧
     (submitWaitlist wv wutm .transportError).finalValues = wv ∧
     (submitRefer rv rutm .transportError).finalSubmitting = false ∧
     (submitRefer rv rutm .transportError).finalValues = rv) ∧
    (hpFilled wv.hp = false → resOk status = true →
      (submitWaitlist wv wutm (.response status b)).finalValues = defaultWaitlistValues) ∧
    (hpFilled rv.hp = false →
      (rv.referral_type = some "Shop" ∨ rv.referral_type = some "Builder") →
      resOk status = true →
      (submitRefer rv rutm (.response status b')).finalValues = defaultReferralValues) := by
  refine ⟨?_, ?_, ?_, ?_⟩
  · intro hnok
    by_cases hw : hpFilled wv.hp = true <;>
      by_cases hr : hpFilled rv.hp = true <;>
        by_cases ht : (rv.referral_type != some "Shop" &&
            rv.referral_type != some "Builder") = true <;>
          simp [submitWaitlist, submitRefer, hw, hr, ht, hnok] at *
  · by_cases hw : hpFilled wv.hp = true <;>
      by_cases hr : hpFilled rv.hp = true <;>
        by_cases ht : (rv.referral_type != some "Shop" &&
            rv.referral_type != some "Builder") = true <;>
          simp [submitWaitlist, submitRefer, hw, hr, ht] at *
  · intro hw hok
    simp [submitWaitlist, hw, hok]
  · intro hr ht hok
    have ht' : (rv.referral_type != some "Shop" &&
        rv.referral_type != some "Builder") = false := by
      rcases ht with h | h <;> simp [h]
    simp [submitRefer, hr, ht', hok]

/-- Witness for failure_returns_idle_values_retained at a concrete 500
response with concrete valid field values. -/
theorem failure_returns_idle_values_retained_witness :
    resOk 500 = false ∧
    ((submitWaitlist ⟨"Al", "a@b.c", some "Enthusiast", some ""⟩
        (useUTMweb "https://x/") (.response 500 none)).finalValues =
      ⟨"Al", "a@b.c", some "Enthusiast", some ""⟩ ∧
     (submitRefer ⟨"Al", "a@b.c", some "Shop", "Bob", some "", some "", some ""⟩
        (useUTMReferWeb "https://x/") (.response 500 none)).finalValues =
      ⟨"Al", "a@b.c", some "Shop", "Bob", some "", some "", some ""⟩) :=
  ⟨by decide,
   ⟨((failure_returns_idle_values_retained
        ⟨"Al", "a@b.c", some "Enthusiast", some ""⟩ (useUTMweb "https://x/")
        ⟨"Al", "a@b.c", some "Shop", "Bob", some "", some "", some ""⟩
        (useUTMReferWeb "https://x/") 500 none none).1 (by decide)).2.1,
    ((failure_returns_idle_values_retained
        ⟨"Al", "a@b.c", some "Enthusiast", some ""⟩ (useUTMweb "https://x/")
        ⟨"Al", "a@b.c", some "Shop", "Bob", some "", some "", some ""⟩
        (useUTMReferWeb "https://x/") 500 none none).1 (by decide)).2.2.2⟩⟩

/-- C4 (amended): every non-2xx — in particular every 4xx — is surfaced
and leaves the form recoverable on both paths (values retained,
submitting cleared, a toast shown); on the REFERRAL path the response
detail is surfaced verbatim when it is a truthy string and re-serialized
with JSON.stringify when structured; the WAITLIST path instead shows the
fixed generic message whatever the detail carried (the original claim
asserted detail surfacing for both paths; see
waitlist_422_detail_not_surfaced). -/
theorem four_xx_recoverable_and_detail_surfaced
    (wv : WaitlistForm) (wutm : UtmIndex) (rv : ReferralForm) (rutm : Utm)
    (status : Nat) (b : Option JVal)
    (hw : hpFilled wv.hp = false) (hr : hpFilled rv.hp = false)
    (ht : rv.referral_type = some "Shop" ∨ rv.referral_type = some "Builder")
    (hnok : resOk status = false) :
    ((submitRefer rv rutm (.response status b)).toast = some (referErrMsg b) ∧
     (submitRefer rv rutm (.response status b)).submitError = some (referErrMsg b) ∧
     (submitRefer rv rutm (.response status b)).finalValues = rv ∧
     (submitRefer rv rutm (.response status b)).finalSubmitting = false) ∧
    (∀ s : String, s ≠ "" →
      referErrMsg (some (JVal.jobj [("detail", JVal.jstr s)])) = s) ∧
    (∀ fs : List (String × JVal),
      referErrMsg (some (JVal.jobj [("detail", JVal.jobj fs)])) =
        jsonStringify (JVal.jobj fs)) ∧
    ((submitWaitlist wv wutm (.response status b)).toast = some couldntSubmitMsg ∧
     (submitWaitlist wv wutm (.response status b)).finalValues = wv ∧
     (submitWaitlist wv wutm (.response status b)).finalSubmitting = false) := by
  have ht' : (rv.referral_type != some "Shop" &&
      rv.referral_type != some "Builder") = false := by
    rcases ht with h | h <;> simp [h]
  refine ⟨?_, ?_, ?_, ?_⟩
  · simp [submitRefer, hr, ht', hnok]
  · intro s hs
    simp [referErrMsg, jget, jsTruthy, List.lookup, hs]
  · intro fs
    simp [referErrMsg, jget, jsTruthy, List.lookup]
  · simp [submitWaitlist, hw, hnok]

/-- Witness for four_xx_recoverable_and_detail_surfaced at a concrete 422
with a string detail. -/
theorem four_xx_recoverable_and_detail_surfaced_witness :
    (hpFilled (some "") = false ∧ resOk 422 = false ∧
      (some "Shop" = some "Shop" ∨ (some "Shop" : Option String) = some "Builder")) ∧
    ((submitRefer ⟨"Al", "a@b.c", some "Shop", "Bob", some "", some "", some ""⟩
        (useUTMReferWeb "https://x/")
        (.response 422 (some (JVal.jobj [("detail", JVal.jstr "Input should be Shop or Builder")])))).toast =
      some (referErrMsg (some (JVal.jobj [("detail", JVal.jstr "Input should be Shop or Builder")])))) ∧
    referErrMsg (some (JVal.jobj [("detail", JVal.jstr "Input should be Shop or Builder")])) =
      "Input should be Shop or Builder" :=
  ⟨⟨by decide, by decide, Or.inl rfl⟩,
   (four_xx_recoverable_and_detail_surfaced
      ⟨"Al", "a@b.c", some "Enthusiast", some ""⟩ (useUTMweb "https://x/")
      ⟨"Al", "a@b.c", some "Shop", "Bob", some "", some "", some ""⟩
      (useUTMReferWeb "https://x/") 422
      (some (JVal.jobj [("detail", JVal.jstr "Input should be Shop or Builder")]))
      (by decide) (by decide) (Or.inl rfl) (by decide)).1.1,
   (four_xx_recoverable_and_detail_surfaced
      ⟨"Al", "a@b.c", some "Enthusiast", some ""⟩ (useUTMweb "https://x/")
      ⟨"Al", "a@b.c", some "Shop", "Bob", some "", some "", some ""⟩
      (useUTMReferWeb "https://x/") 422
      (some (JVal.jobj [("detail", JVal.jstr "Input should be Shop or Builder")]))
      (by decide) (by decide) (Or.inl rfl) (by decide)).2.1
      "Input should be Shop or Builder" (by decide)⟩

/-- C4 counterexample: on the waitlist path a 422 carrying a string
detail is NOT surfaced — the toast is the fixed generic message, which
differs from the detail. -/
theorem waitlist_422_detail_not_surfaced :
    (submitWaitlist ⟨"Al", "a@b.c", some "Enthusiast", some ""⟩ (useUTMweb "https://x/")
        (FetchOutcome.response 422
          (some (JVal.jobj [("detail", JVal.jstr "Input should be Shop or Builder")])))).toast
      = some couldntSubmitMsg ∧
    couldntSubmitMsg ≠ "Input should be Shop or Builder" := by
  constructor
  · rfl
  · decide

/-- C5: resolving the reference location yields utm_source "ig",
utm_campaign "launch", utm_medium unset, and source_url equal to the full
href; and in general the serialized waitlist body carries each utm key
exactly when the resolved field is set (a present-but-undefined field is
omitted by JSON.stringify, never sent as null or empty). -/
theorem utm_resolution_and_omission :
    useUTMweb "https://x/?utm_source=ig&utm_campaign=launch" =
      { source_url := "https://x/?utm_source=ig&utm_campaign=launch",
        utm_source := some "ig", utm_campaign := some "launch",
        utm_medium := none, prefill_role := none } ∧
    (∀ (v : WaitlistForm) (utm : UtmIndex),
      (serializeObj (waitlistBodyObj v utm)).lookup "utm_source" = utm.utm_source ∧
      (serializeObj (waitlistBodyObj v utm)).lookup "utm_campaign" = utm.utm_campaign ∧
      (serializeObj (waitlistBodyObj v utm)).lookup "utm_medium" = utm.utm_medium) ∧
    (∀ v : WaitlistForm,
      (serializeObj (waitlistBodyObj v
          (useUTMweb "https://x/?utm_source=ig&utm_campaign=launch"))).lookup "utm_source" =
        some "ig" ∧
      (serializeObj (waitlistBodyObj v
          (useUTMweb "https://x/?utm_source=ig&utm_campaign=launch"))).lookup "utm_campaign" =
        some "launch" ∧
      (serializeObj (waitlistBodyObj v
          (useUTMweb "https://x/?utm_source=ig&utm_campaign=launch"))).lookup "utm_medium" =
        none) := by
  have hresolve : useUTMweb "https://x/?utm_source=ig&utm_campaign=launch" =
      { source_url := "https://x/?utm_source=ig&utm_campaign=launch",
        utm_source := some "ig", utm_campaign := some "launch",
        utm_medium := none, prefill_role := none } := by decide
  refine ⟨hresolve, fun v utm => waitlist_serialized_utm_lookup v utm, fun v => ?_⟩
  rw [hresolve]
  exact waitlist_serialized_utm_lookup v _

/-- C6: code evaluated at the failing input.  From the first paint
(no offsets reported), tap `goTo("Signup")` (which schedules the single
250ms retry), let `report("Signup", 500)` arrive inside the window, then
let the retry fire: the claim requires a scroll to max(0, 500-88) = 412,
but the retry callback re-reads the `sectionYs` snapshot captured when it
was scheduled — still empty — so no scroll command is ever issued (the
retry consumes itself silently) even though the live map now holds the
offset. -/
theorem nav_retry_stale_snapshot_noop :
    (runNav [NavEvent.nav "Signup", NavEvent.report "Signup" 500,
             NavEvent.timerFire]).scrolls = [] ∧
    (runNav [NavEvent.nav "Signup", NavEvent.report "Signup" 500,
             NavEvent.timerFire]).pendingTimers = [] ∧
    (runNav [NavEvent.nav "Signup", NavEvent.report "Signup" 500,
             NavEvent.timerFire]).current "Signup" = some 500 ∧
    max 0 (500 - headerHeight) = (412 : Int) := by
  exact ⟨rfl, rfl, rfl, by decide⟩

/-- C7 (amended): `showToast` replaces the visible toast immediately
(never queues), a toast is dismissed when a pending 2.5s timer fires, and
when no stale timer is pending the toast survives every earlier instant
and lasts its full duration; but pending timers of earlier toasts are not
cancelled, so a replacement can be dismissed before its own 2.5s (see
toast_replacement_dismissed_early). -/
theorem toast_replace_and_bounded_dismiss :
    (∀ (s : ToastState) (t : Nat) (m : String),
      (toastStep s (ToastEvent.disp t m)).toast = some m) ∧
    (∀ (s : ToastState) (t : Nat), s.pendingT.contains t = true →
      (toastStep s (ToastEvent.fire t)).toast = none) ∧
    (∀ (tst : Option String) (t u : Nat) (m : String), u ≠ t + toastDuration →
      (toastStep (toastStep ⟨tst, []⟩ (ToastEvent.disp t m))
          (ToastEvent.fire u)).toast = some m) ∧
    (∀ (tst : Option String) (t : Nat) (m : String),
      (toastStep (toastStep ⟨tst, []⟩ (ToastEvent.disp t m))
          (ToastEvent.fire (t + toastDuration))).toast = none) := by
  refine ⟨fun s t m => rfl, ?_, ?_, ?_⟩
  · intro s t h
    have hm : t ∈ s.pendingT := by simpa using h
    simp [toastStep, hm]
  · intro tst t u m h
    simp [toastStep, h]
  · intro tst t m
    simp [toastStep]

/-- Witness for toast_replace_and_bounded_dismiss at concrete times. -/
theorem toast_replace_and_bounded_dismiss_witness :
    ((ToastState.mk (some "A") [2500]).pendingT.contains 2500 = true ∧
      (toastStep (ToastState.mk (some "A") [2500]) (ToastEvent.fire 2500)).toast = none) ∧
    ((99 : Nat) ≠ 0 + toastDuration ∧
      (toastStep (toastStep ⟨none, []⟩ (ToastEvent.disp 0 "B"))
          (ToastEvent.fire 99)).toast = some "B") :=
  ⟨⟨by decide, toast_replace_and_bounded_dismiss.2.1 _ 2500 (by decide)⟩,
   ⟨by decide, toast_replace_and_bounded_dismiss.2.2.1 none 0 99 "B" (by decide)⟩⟩

/-- C7 counterexample: toast "A" at t=0, replaced by toast "B" at t=1000;
the uncancelled timer of "A" fires at t=2500 and clears "B" after only
1500ms, refuting that every displayed toast remains visible for the full
2.5s. -/
theorem toast_replacement_dismissed_early :
    (runToast [ToastEvent.disp 0 "A", ToastEvent.disp 1000 "B",
               ToastEvent.fire 2500]).toast = none ∧
    2500 < 1000 + toastDuration := by
  constructor
  · decide
  · decide

/-- C8: `onLayoutSection` overwrites only the reported id — every other
entry is unchanged and no set entry is ever removed by a report — while
the Dimensions-change effect replaces the whole map by `{}` in one
assignment, after which every offset is absent until re-reported. -/
theorem section_registry_report_local_reset_global
    (m : SectionMap) (id j : String) (y : Int) :
    (j ≠ id → reportOffset m id y j = m j) ∧
    reportOffset m id y id = some y ∧
    (m j ≠ none → reportOffset m id y j ≠ none) ∧
    resetSectionYs j = none := by
  refine ⟨?_, ?_, ?_, rfl⟩
  · intro h
    simp [reportOffset, h]
  · simp [reportOffset]
  · intro h
    by_cases he : j == id
    · simp [reportOffset, he]
    · simpa [reportOffset, he] using h

/-- Witness for section_registry_report_local_reset_global on a concrete
map and distinct ids. -/
theorem section_registry_report_local_reset_global_witness :
    ("Footer" : String) ≠ "Hero" ∧
    (reportOffset resetSectionYs "Hero" 5) "Footer" = resetSectionYs "Footer" ∧
    ((reportOffset resetSectionYs "Hero" 5) "Footer" = none ∧
     (reportOffset resetSectionYs "Hero" 5) "Hero" = some 5) :=
  ⟨by decide,
   (section_registry_report_local_reset_global resetSectionYs "Hero" "Footer" 5).1 (by decide),
   ⟨by
      rw [(section_registry_report_local_reset_global resetSectionYs "Hero" "Footer" 5).1 (by decide)]
      rfl,
    (section_registry_report_local_reset_global resetSectionYs "Hero" "Footer" 5).2.1⟩⟩

/-- C9: the footer micro-form guard — an empty email or one failing the
anchored pattern yields no request at all (and `submitFooterEmail`
performs no state write and surfaces nothing, a silent no-op); a passing
email yields exactly one POST to /api/waitlist whose serialized body has
the email as both `name` and `email` and the fixed role `Subscriber`. -/
theorem footer_email_guard_and_payload (email : String) (utm : UtmIndex) :
    ((email = "" ∨ emailRegexMatch email = false) →
      submitFooterEmail email utm = none) ∧
    (emailRegexMatch email = true →
      submitFooterEmail email utm =
        some { path := "/api/waitlist", body := footerBodyObj email utm } ∧
      (serializeObj (footerBodyObj email utm)).lookup "name" = some email ∧
      (serializeObj (footerBodyObj email utm)).lookup "email" = some email ∧
      (serializeObj (footerBodyObj email utm)).lookup "role" = some "Subscriber") := by
  constructor
  · intro h
    rcases h with h | h
    · simp [submitFooterEmail, h]
    · simp [submitFooterEmail, h]
  · intro h
    have hne : (email == "") = false := by
      rcases he : (email == "") with _ | _
      · rfl
      · have he' : email = "" := by simpa using he
        rw [he'] at h
        exact absurd h (by decide)
    refine ⟨by simp [submitFooterEmail, hne, h], rfl, rfl, rfl⟩

/-- Witness for footer_email_guard_and_payload on a rejected and an
accepted concrete email. -/
theorem footer_email_guard_and_payload_witness :
    (emailRegexMatch "not-an-email" = false ∧
      submitFooterEmail "not-an-email" (useUTMweb "https://x/") = none) ∧
    (emailRegexMatch "you@example.com" = true ∧
      submitFooterEmail "you@example.com" (useUTMweb "https://x/") =
        some { path := "/api/waitlist",
               body := footerBodyObj "you@example.com" (useUTMweb "https://x/") }) :=
  ⟨⟨by decide,
    (footer_email_guard_and_payload "not-an-email" (useUTMweb "https://x/")).1
      (Or.inr (by decide))⟩,
   ⟨by decide,
    ((footer_email_guard_and_payload "you@example.com" (useUTMweb "https://x/")).2
      (by decide)).1⟩⟩

/-- C10: a recognized UTM key present with an empty-string value resolves
to unset exactly as when the key is absent (both collapse to undefined
via `|| undefined`), and the field is then omitted from every outbound
payload — waitlist, footer micro-form, and referral. -/
theorem empty_utm_param_treated_as_absent
    (href : String) (v : WaitlistForm) (rv : ReferralForm) (email : String) :
    (spGet (queryOfHref href) "utm_source" = some "" ∨
        spGet (queryOfHref href) "utm_source" = none →
      (useUTMweb href).utm_source = none ∧
      (useUTMReferWeb href).utm_source = none ∧
      (serializeObj (waitlistBodyObj v (useUTMweb href))).lookup "utm_source" = none ∧
      (serializeObj (footerBodyObj email (useUTMweb href))).lookup "utm_source" = none ∧
      (serializeObj (referralBodyObj rv (useUTMReferWeb href))).lookup "utm_source" = none) ∧
    (spGet (queryOfHref href) "utm_campaign" = some "" ∨
        spGet (queryOfHref href) "utm_campaign" = none →
      (useUTMweb href).utm_campaign = none ∧
      (useUTMReferWeb href).utm_campaign = none ∧
      (serializeObj (waitlistBodyObj v (useUTMweb href))).lookup "utm_campaign" = none ∧
      (serializeObj (footerBodyObj email (useUTMweb href))).lookup "utm_campaign" = none ∧
      (serializeObj (referralBodyObj rv (useUTMReferWeb href))).lookup "utm_campaign" = none) ∧
    (spGet (queryOfHref href) "utm_medium" = some "" ∨
        spGet (queryOfHref href) "utm_medium" = none →
      (useUTMweb href).utm_medium = none ∧
      (useUTMReferWeb href).utm_medium = none ∧
      (serializeObj (waitlistBodyObj v (useUTMweb href))).lookup "utm_medium" = none ∧
      (serializeObj (footerBodyObj email (useUTMweb href))).lookup "utm_medium" = none ∧
      (serializeObj (referralBodyObj rv (useUTMReferWeb href))).lookup "utm_medium" = none) := by
  refine ⟨?_, ?_, ?_⟩
  · intro h
    have h1 : (useUTMweb href).utm_source = none := by
      rcases h with h | h <;> simp [useUTMweb, orUndefined, h]
    have h2 : (useUTMReferWeb href).utm_source = none := by
      rcases h with h | h <;> simp [useUTMReferWeb, orUndefined, h]
    exact ⟨h1, h2,
      (waitlist_serialized_utm_lookup v _).1.trans h1,
      (footer_serialized_utm_lookup email _).1.trans h1,
      (referral_serialized_utm_lookup rv _).1.trans h2⟩
  · intro h
    have h1 : (useUTMweb href).utm_campaign = none := by
      rcases h with h | h <;> simp [useUTMweb, orUndefined, h]
    have h2 : (useUTMReferWeb href).utm_campaign = none := by
      rcases h with h | h <;> simp [useUTMReferWeb, orUndefined, h]
    exact ⟨h1, h2,
      (waitlist_serialized_utm_lookup v _).2.1.trans h1,
      (footer_serialized_utm_lookup email _).2.1.trans h1,
      (referral_serialized_utm_lookup rv _).2.1.trans h2⟩
  · intro h
    have h1 : (useUTMweb href).utm_medium = none := by
      rcases h with h | h <;> simp [useUTMweb, orUndefined, h]
    have h2 : (useUTMReferWeb href).utm_medium = none := by
      rcases h with h | h <;> simp [useUTMReferWeb, orUndefined, h]
    exact ⟨h1, h2,
      (waitlist_serialized_utm_lookup v _).2.2.trans h1,
      (footer_serialized_utm_lookup email _).2.2.trans h1,
      (referral_serialized_utm_lookup rv _).2.2.trans h2⟩

/-- Witness for empty_utm_param_treated_as_absent at a concrete location
whose three UTM keys are present but empty. -/
theorem empty_utm_param_treated_as_absent_witness :
    spGet (queryOfHref "https://x/?utm_source=&utm_campaign=&utm_medium=") "utm_source" =
      some "" ∧
    spGet (queryOfHref "https://x/?utm_source=&utm_campaign=&utm_medium=") "utm_medium" =
      some "" ∧
    (useUTMweb "https://x/?utm_source=&utm_campaign=&utm_medium=").utm_source = none ∧
    (useUTMweb "https://x/?utm_source=&utm_campaign=&utm_medium=").utm_medium = none ∧
    (serializeObj (waitlistBodyObj ⟨"Al", "a@b.c", some "Enthusiast", some ""⟩
        (useUTMweb "https://x/?utm_source=&utm_campaign=&utm_medium="))).lookup "utm_medium" =
      none :=
  ⟨by decide, by decide,
   ((empty_utm_param_treated_as_absent "https://x/?utm_source=&utm_campaign=&utm_medium="
      ⟨"Al", "a@b.c", some "Enthusiast", some ""⟩
      ⟨"Al", "a@b.c", some "Shop", "Bob", some "", some "", some ""⟩
      "a@b.c").1 (Or.inl (by decide))).1,
   ((empty_utm_param_treated_as_absent "https://x/?utm_source=&utm_campaign=&utm_medium="
      ⟨"Al", "a@b.c", some "Enthusiast", some ""⟩
      ⟨"Al", "a@b.c", some "Shop", "Bob", some "", some "", some ""⟩
      "a@b.c").2.2 (Or.inl (by decide))).1,
   ((empty_utm_param_treated_as_absent "https://x/?utm_source=&utm_campaign=&utm_medium="
      ⟨"Al", "a@b.c", some "Enthusiast", some ""⟩
      ⟨"Al", "a@b.c", some "Shop", "Bob", some "", some "", some ""⟩
      "a@b.c").2.2 (Or.inl (by decide))).2.2.1⟩
